import Mathlib

/-!
Verification of the groupby aggregation dispatcher of the cudf repository
(`cpp/src/groupby/groupby.cu`): request validation, empty-input handling,
hash-vs-sort strategy dispatch, the lazily created sort grouping helper,
and the `get_groups` introspection entry point.

Stateful C++ methods are embedded as explicit state-passing functions: each
call returns its result together with the updated `Groupby` context, so the
lazy creation of the sort helper and its caches are observable in the model.
Components that live outside the dispatcher source file (the hash groupby
kernel, `sort_aggregate`/`sort_scan`, the sort helper's computations,
`is_valid_aggregation`, `target_type`, `can_use_hash_groupby`) are modelled
from the spec, as marked on each definition.
-/

namespace Cudf

/-- Element type tag of a column.  A dictionary-encoded column carries the
element type of its dictionary keys child column, which
`cudf::dictionary_column_view(...).keys().type()` extracts. -/
inductive DType where
  | int32
  | int64
  | float32
  | float64
  | bool8
  | string
  | dictionary32 (keyType : DType)
deriving DecidableEq, Repr

/-- `cudf::is_dictionary`: whether a type tag is the dictionary type. -/
def is_dictionary : DType → Bool
  | .dictionary32 _ => true
  | _ => false

/-- `dictionary_column_view(col).keys().type()`: the element type of the
dictionary keys child column. -/
def dictionary_keys_type : DType → DType
  | .dictionary32 k => k
  | t => t

/-- Aggregation kinds (`aggregation::Kind`) relevant to the dispatcher. -/
inductive Kind where
  | SUM
  | MIN
  | MAX
  | COUNT_VALID
  | COUNT_ALL
  | MEAN
  | MEDIAN
  | QUANTILE
  | STD
  | VARIANCE
deriving DecidableEq, Repr

/-- Modelled from the spec: numeric element types (the fixed-width arithmetic
types); strings and dictionary columns are not numeric. -/
def is_numeric : DType → Bool
  | .int32 | .int64 | .float32 | .float64 | .bool8 => true
  | _ => false

/-- Modelled from the spec: `cudf::detail::is_valid_aggregation`, the
supported (value element type, aggregation kind) combination table.
Counting is defined for every type, MIN/MAX need only an ordering, and the
arithmetic aggregations (SUM, MEAN, MEDIAN, QUANTILE, STD, VARIANCE) are
defined only over numeric element types. -/
def is_valid_aggregation (t : DType) (k : Kind) : Bool :=
  match k with
  | .COUNT_VALID | .COUNT_ALL => true
  | .MIN | .MAX => true
  | .SUM | .MEAN | .MEDIAN | .QUANTILE | .STD | .VARIANCE => is_numeric t

/-- Modelled from the spec: `cudf::detail::target_type`, the type-inference
rule mapping (value element type, aggregation kind) to the result element
type: COUNT yields an integer, MEAN/MEDIAN/QUANTILE/STD/VARIANCE a
floating-point type, SUM a widened numeric type, MIN/MAX the input type. -/
def target_type (t : DType) (k : Kind) : DType :=
  match k with
  | .COUNT_VALID | .COUNT_ALL => .int32
  | .MEAN | .MEDIAN | .QUANTILE | .STD | .VARIANCE => .float64
  | .MIN | .MAX => t
  | .SUM =>
    match t with
    | .int32 => .int64
    | .bool8 => .int64
    | u => u

/-- Modelled from the spec: the hash-compatible subset of aggregation kinds
(SUM, MIN, MAX, COUNT, MEAN); MEDIAN/QUANTILE and the variance family
require sorted access to all values of a group. -/
def is_hash_kind : Kind → Bool
  | .SUM | .MIN | .MAX | .COUNT_VALID | .COUNT_ALL | .MEAN => true
  | _ => false

/-- One element of a column: a value or null. -/
abbrev Cell := Option Int

/-- A data table: an ordered sequence of equal-length columns. -/
structure TableD where
  cols : List (List Cell)
deriving DecidableEq, Repr

/-- `table_view::num_columns`. -/
def TableD.num_columns (t : TableD) : Nat := t.cols.length

/-- `table_view::num_rows` (all columns share one length). -/
def TableD.num_rows (t : TableD) : Nat := (t.cols.headD []).length

/-- The i-th row of a table, read across its columns. -/
def TableD.row (t : TableD) (i : Nat) : List Cell :=
  t.cols.map (fun c => c.getD i none)

/-- `cudf::empty_like`: a table with the same columns, each emptied. -/
def empty_like (t : TableD) : TableD :=
  ⟨t.cols.map (fun _ => [])⟩

/-- `cudf::detail::gather` restricted to what `get_groups` uses: reorder the
rows of a table by a gather map of row indices. -/
def gather (t : TableD) (idx : List Nat) : TableD :=
  ⟨t.cols.map (fun c => idx.map (fun i => c.getD i none))⟩

/-- A `column_view` of values to aggregate: its element type tag and its
row count, the only attributes the dispatcher inspects. -/
structure ColumnView where
  dtype : DType
  size : Nat
deriving DecidableEq, Repr

/-- `aggregation_request`: a values column and the aggregations to apply. -/
structure AggregationRequest where
  values : ColumnView
  aggregations : List Kind
deriving DecidableEq, Repr

/-- An output column, described by its element type and row count. -/
structure ColumnSpec where
  dtype : DType
  size : Nat
deriving DecidableEq, Repr

/-- `cudf::make_empty_column`: a zero-row column of the given type. -/
def make_empty_column (t : DType) : ColumnSpec := ⟨t, 0⟩

/-- `aggregation_result`: one result column per requested aggregation. -/
structure AggregationResult where
  results : List ColumnSpec
deriving DecidableEq, Repr

/-- `empty_results` (anonymous namespace of the dispatcher source): for each
request, one empty column per aggregation, typed by `target_type` applied to
the request's value type and the aggregation kind. -/
def empty_results (requests : List AggregationRequest) : List AggregationResult :=
  requests.map (fun request =>
    ⟨request.aggregations.map (fun agg =>
      make_empty_column (target_type request.values.dtype agg))⟩)

/-- `verify_valid_requests`: every (value element type, kind) pair must be a
valid aggregation, where a dictionary-encoded values column is checked
against the element type of its dictionary keys child, not the dictionary
type itself.  (The further `CUDF_EXPECTS` in the source sits under
`#if (__CUDACC_VER_MAJOR__ == 10) and (__CUDACC_VER_MINOR__ == 2)` and is
compiled out except under nvcc 10.2, so it is not part of this embedding.) -/
def verify_valid_requests (requests : List AggregationRequest) : Bool :=
  requests.all (fun request =>
    request.aggregations.all (fun agg =>
      let values_type :=
        if is_dictionary request.values.dtype then
          dictionary_keys_type request.values.dtype
        else request.values.dtype
      is_valid_aggregation values_type agg))

/-- `cudf::sorted`: the caller's hint whether keys are pre-sorted. -/
inductive Sorted where
  | NO
  | YES
deriving DecidableEq, Repr

/-- `cudf::null_policy`: whether rows with null keys join grouping. -/
inductive NullPolicy where
  | EXCLUDE
  | INCLUDE
deriving DecidableEq, Repr

/-- `cudf::order`: per-column sort direction given at construction. -/
inductive Order where
  | ASCENDING
  | DESCENDING
deriving DecidableEq, Repr

/-- `cudf::null_order`: per-column null placement given at construction. -/
inductive NullOrder where
  | AFTER
  | BEFORE
deriving DecidableEq, Repr

/-- Comparator on cells: nulls order before values, values by `≤`. -/
def cellLe : Cell → Cell → Bool
  | none, _ => true
  | some _, none => false
  | some a, some b => a ≤ b

/-- Lexicographic comparator on key rows. -/
def rowLe : List Cell → List Cell → Bool
  | [], _ => true
  | _ :: _, [] => false
  | a :: as, b :: bs => if a = b then rowLe as bs else cellLe a b

/-- Modelled from the spec: the sort helper's key sort order — the stable
permutation of row indices sorting the key table, after pre-filtering rows
with a null key under the EXCLUDE policy; when the keys are declared
pre-sorted the sort is skipped. -/
def compute_key_sort_order (keys : TableD) (policy : NullPolicy) (srt : Sorted) :
    List Nat :=
  let idxs := (List.range keys.num_rows).filter
    (fun i => policy == NullPolicy.INCLUDE || (keys.row i).all Option.isSome)
  match srt with
  | .YES => idxs
  | .NO => idxs.mergeSort (fun i j => rowLe (keys.row i) (keys.row j))

/-- Modelled from the spec: the sort helper's group boundary offsets —
position 0, every position in the sort order where the key row changes, and
finally the number of rows that survived null filtering. -/
def compute_group_offsets (keys : TableD) (policy : NullPolicy) (srt : Sorted) :
    List Nat :=
  let ord := compute_key_sort_order keys policy srt
  ((List.range ord.length).filter (fun j =>
      j == 0 || decide (keys.row (ord.getD j 0) ≠ keys.row (ord.getD (j - 1) 0))))
    ++ [ord.length]

/-- Modelled from the spec: the sort helper's materialized unique-key table —
the first row of each group of the sorted, permuted key table. -/
def compute_sorted_keys (keys : TableD) (policy : NullPolicy) (srt : Sorted) :
    TableD :=
  let ord := compute_key_sort_order keys policy srt
  let offs := (compute_group_offsets keys policy srt).dropLast
  let rows := offs.map (fun o => keys.row (ord.getD o 0))
  ⟨(List.range keys.num_columns).map (fun c => rows.map (fun r => r.getD c none))⟩

/-- `cudf::groupby::detail::sort::sort_groupby_helper` — modelled from the
spec: derived state over the keys, computing each output on first demand and
caching it for the helper's lifetime (the dispatcher constructs it with the
keys, the null policy and the sortedness hint). -/
structure SortGroupbyHelper where
  keys : TableD
  include_null_keys : NullPolicy
  keys_are_sorted : Sorted
  cached_key_sort_order : Option (List Nat)
  cached_group_offsets : Option (List Nat)
  cached_sorted_keys : Option TableD
deriving DecidableEq, Repr

/-- A freshly constructed sort helper: nothing cached yet. -/
def mk_sort_groupby_helper (keys : TableD) (p : NullPolicy) (s : Sorted) :
    SortGroupbyHelper :=
  ⟨keys, p, s, none, none, none⟩

/-- `sort_groupby_helper::key_sort_order`: return the cached permutation, or
compute and cache it on first call. -/
def SortGroupbyHelper.key_sort_order (h : SortGroupbyHelper) :
    List Nat × SortGroupbyHelper :=
  match h.cached_key_sort_order with
  | some v => (v, h)
  | none =>
    let v := compute_key_sort_order h.keys h.include_null_keys h.keys_are_sorted
    (v, { h with cached_key_sort_order := some v })

/-- `sort_groupby_helper::group_offsets`: return the cached offsets, or
compute and cache them on first call. -/
def SortGroupbyHelper.group_offsets (h : SortGroupbyHelper) :
    List Nat × SortGroupbyHelper :=
  match h.cached_group_offsets with
  | some v => (v, h)
  | none =>
    let v := compute_group_offsets h.keys h.include_null_keys h.keys_are_sorted
    (v, { h with cached_group_offsets := some v })

/-- `sort_groupby_helper::sorted_keys`: return the cached unique-key table,
or compute and cache it on first call. -/
def SortGroupbyHelper.sorted_keys (h : SortGroupbyHelper) :
    TableD × SortGroupbyHelper :=
  match h.cached_sorted_keys with
  | some v => (v, h)
  | none =>
    let v := compute_sorted_keys h.keys h.include_null_keys h.keys_are_sorted
    (v, { h with cached_sorted_keys := some v })

/-- The grouping context `cudf::groupby::groupby`: the key table view, the
construction options and the lazily created sort helper (`_helper`). -/
structure Groupby where
  keys : TableD
  include_null_keys : NullPolicy
  keys_are_sorted : Sorted
  column_order : List Order
  null_precedence : List NullOrder
  helper : Option SortGroupbyHelper
deriving DecidableEq, Repr

/-- The constructor: stores the options; `_helper` starts empty. -/
def mk_groupby (keys : TableD) (p : NullPolicy) (s : Sorted)
    (co : List Order) (np : List NullOrder) : Groupby :=
  ⟨keys, p, s, co, np, none⟩

/-- `groupby::helper()`: return the existing sort helper, or construct it
from the keys, the null policy and the sortedness hint and store it. -/
def Groupby.get_helper (g : Groupby) : SortGroupbyHelper × Groupby :=
  match g.helper with
  | some h => (h, g)
  | none =>
    let h := mk_sort_groupby_helper g.keys g.include_null_keys g.keys_are_sorted
    (h, { g with helper := some h })

/-- Which grouping strategy produced a dispatched result. -/
inductive Strategy where
  | hash
  | sort
deriving DecidableEq, Repr

/-- The observable outcome of an `aggregate`/`scan` call: either the fully
computed empty-input result, or a result delegated to one of the two
grouping strategies (whose aggregation kernels live outside the dispatcher
source). -/
inductive AggOutput where
  | emptyOut (unique_keys : TableD) (results : List AggregationResult)
  | dispatched (strategy : Strategy)
deriving DecidableEq, Repr

/-- The errors the dispatcher's `CUDF_EXPECTS` checks raise. -/
inductive GbError where
  | SizeMismatch
  | InvalidAggregation
deriving DecidableEq, Repr

/-- Modelled from the spec: `detail::hash::can_use_hash_groupby` — true when
every requested aggregation kind belongs to the hash-compatible subset. -/
def can_use_hash_groupby (keys : TableD) (requests : List AggregationRequest) :
    Bool :=
  requests.all (fun r => r.aggregations.all is_hash_kind)

/-- Modelled from the spec: `detail::hash::groupby` computes the aggregates
in one hash-table pass without touching the sort helper; its kernels are
outside the dispatcher, so the model records the strategy used. -/
def hash_groupby (keys : TableD) (requests : List AggregationRequest)
    (p : NullPolicy) : AggOutput :=
  AggOutput.dispatched Strategy.hash

/-- Modelled from the spec: `groupby::sort_aggregate` computes per-group
aggregates via the sort path, consulting (and thereby building) the sort
grouping helper; the aggregation kernels are outside the dispatcher, so the
model records the strategy used and the helper-creating effect. -/
def Groupby.sort_aggregate (g : Groupby) (requests : List AggregationRequest) :
    AggOutput × Groupby :=
  (AggOutput.dispatched Strategy.sort, (g.get_helper).2)

/-- Modelled from the spec: `groupby::sort_scan` computes per-row running
aggregates via the sort path, consulting (and thereby building) the sort
grouping helper. -/
def Groupby.sort_scan (g : Groupby) (requests : List AggregationRequest) :
    AggOutput × Groupby :=
  (AggOutput.dispatched Strategy.sort, (g.get_helper).2)

/-- `groupby::dispatch_aggregation`: use the hash groupby only when the keys
are not declared sorted, no sort helper exists yet, and every request can be
satisfied by the hash implementation; otherwise use the sort path. -/
def Groupby.dispatch_aggregation (g : Groupby)
    (requests : List AggregationRequest) : AggOutput × Groupby :=
  if g.keys_are_sorted == Sorted.NO && g.helper.isNone
      && can_use_hash_groupby g.keys requests then
    (hash_groupby g.keys requests g.include_null_keys, g)
  else
    g.sort_aggregate requests

/-- `groupby::aggregate`: check every request's values column has as many
rows as the keys, check type/aggregation validity, return the empty result
for a zero-row key table, and otherwise dispatch to a strategy.  Errors are
returned with the context unchanged (a thrown `CUDF_EXPECTS` leaves the
object as it was). -/
def Groupby.aggregate (g : Groupby) (requests : List AggregationRequest) :
    Except GbError AggOutput × Groupby :=
  if !(requests.all fun request => request.values.size == g.keys.num_rows) then
    (Except.error GbError.SizeMismatch, g)
  else if !(verify_valid_requests requests) then
    (Except.error GbError.InvalidAggregation, g)
  else if g.keys.num_rows == 0 then
    (Except.ok (AggOutput.emptyOut (empty_like g.keys) (empty_results requests)), g)
  else
    (Except.ok (g.dispatch_aggregation requests).1, (g.dispatch_aggregation requests).2)

/-- `groupby::scan`: the same size and validity checks and the same
empty-input result as `aggregate`, then always the sort path. -/
def Groupby.scan (g : Groupby) (requests : List AggregationRequest) :
    Except GbError AggOutput × Groupby :=
  if !(requests.all fun request => request.values.size == g.keys.num_rows) then
    (Except.error GbError.SizeMismatch, g)
  else if !(verify_valid_requests requests) then
    (Except.error GbError.InvalidAggregation, g)
  else if g.keys.num_rows == 0 then
    (Except.ok (AggOutput.emptyOut (empty_like g.keys) (empty_results requests)), g)
  else
    (Except.ok (g.sort_scan requests).1, (g.sort_scan requests).2)

/-- `groupby::groups`: the result of `get_groups`. -/
structure Groups where
  keys : TableD
  offsets : List Nat
  values : Option TableD
deriving DecidableEq, Repr

/-- `groupby::get_groups`: materialize the helper's sorted unique keys and
group offsets, and, when a values table with at least one column is
supplied, gather its rows by the key sort order. -/
def Groupby.get_groups (g : Groupby) (values : TableD) : Groups × Groupby :=
  let p0 := g.get_helper
  let p1 := p0.1.sorted_keys
  let p2 := p1.2.group_offsets
  if values.num_columns != 0 then
    let p3 := p2.2.key_sort_order
    (⟨p1.1, p2.1, some (gather values p3.1)⟩, { g with helper := some p3.2 })
  else
    (⟨p1.1, p2.1, none⟩, { g with helper := some p2.2 })

/-! ## Shared lemmas -/

/-- The dispatch condition Bool of `dispatch_aggregation`, as a proposition. -/
lemma dispatch_cond_iff (g : Groupby) (requests : List AggregationRequest) :
    (g.keys_are_sorted == Sorted.NO && g.helper.isNone
      && can_use_hash_groupby g.keys requests) = true ↔
    (g.keys_are_sorted = Sorted.NO ∧ g.helper = none ∧
      can_use_hash_groupby g.keys requests = true) := by
  simp [Bool.and_assoc, Option.isNone_iff_eq_none, and_assoc]

/-- `helper()` on a context that already has a helper returns it unchanged. -/
lemma get_helper_of_some (g : Groupby) (h : SortGroupbyHelper)
    (hh : g.helper = some h) : g.get_helper = (h, g) := by
  simp [Groupby.get_helper, hh]

/-- After `helper()`, the context holds a helper. -/
lemma get_helper_snd_isSome (g : Groupby) : (g.get_helper).2.helper.isSome := by
  cases hh : g.helper <;> simp [Groupby.get_helper, hh]

/-- `helper()` leaves a context that already has a helper unchanged. -/
lemma get_helper_snd_of_isSome (g : Groupby) (h : g.helper.isSome) :
    (g.get_helper).2 = g := by
  cases hh : g.helper with
  | none => rw [hh] at h; simp at h
  | some h0 => simp [Groupby.get_helper, hh]

/-- After `sorted_keys`, the returned table is cached. -/
lemma sorted_keys_cached (h : SortGroupbyHelper) :
    (h.sorted_keys).2.cached_sorted_keys = some (h.sorted_keys).1 := by
  cases hc : h.cached_sorted_keys <;> simp [SortGroupbyHelper.sorted_keys, hc]

/-- `sorted_keys` on a helper with a filled cache reads the cache. -/
lemma sorted_keys_of_cached (h : SortGroupbyHelper) (v : TableD)
    (hc : h.cached_sorted_keys = some v) : h.sorted_keys = (v, h) := by
  simp [SortGroupbyHelper.sorted_keys, hc]

/-- After `group_offsets`, the returned offsets are cached. -/
lemma group_offsets_cached (h : SortGroupbyHelper) :
    (h.group_offsets).2.cached_group_offsets = some (h.group_offsets).1 := by
  cases hc : h.cached_group_offsets <;> simp [SortGroupbyHelper.group_offsets, hc]

/-- `group_offsets` on a helper with a filled cache reads the cache. -/
lemma group_offsets_of_cached (h : SortGroupbyHelper) (v : List Nat)
    (hc : h.cached_group_offsets = some v) : h.group_offsets = (v, h) := by
  simp [SortGroupbyHelper.group_offsets, hc]

/-- `group_offsets` leaves the sorted-keys cache alone. -/
lemma group_offsets_keeps_sorted_keys (h : SortGroupbyHelper) :
    (h.group_offsets).2.cached_sorted_keys = h.cached_sorted_keys := by
  cases hc : h.cached_group_offsets <;> simp [SortGroupbyHelper.group_offsets, hc]

/-- After `key_sort_order`, the returned permutation is cached. -/
lemma key_sort_order_cached (h : SortGroupbyHelper) :
    (h.key_sort_order).2.cached_key_sort_order = some (h.key_sort_order).1 := by
  cases hc : h.cached_key_sort_order <;> simp [SortGroupbyHelper.key_sort_order, hc]

/-- `key_sort_order` leaves the sorted-keys cache alone. -/
lemma key_sort_order_keeps_sorted_keys (h : SortGroupbyHelper) :
    (h.key_sort_order).2.cached_sorted_keys = h.cached_sorted_keys := by
  cases hc : h.cached_key_sort_order <;> simp [SortGroupbyHelper.key_sort_order, hc]

/-- `key_sort_order` leaves the group-offsets cache alone. -/
lemma key_sort_order_keeps_group_offsets (h : SortGroupbyHelper) :
    (h.key_sort_order).2.cached_group_offsets = h.cached_group_offsets := by
  cases hc : h.cached_key_sort_order <;> simp [SortGroupbyHelper.key_sort_order, hc]

/-- `get_groups` stores in the context a helper whose caches hold exactly
the sorted keys and group offsets it returned. -/
lemma get_groups_spec (g : Groupby) (values : TableD) :
    ∃ H : SortGroupbyHelper,
      (g.get_groups values).2 = { g with helper := some H } ∧
      H.cached_sorted_keys = some (g.get_groups values).1.keys ∧
      H.cached_group_offsets = some (g.get_groups values).1.offsets := by
  by_cases hcol : (values.num_columns != 0) = true
  · refine ⟨(((((g.get_helper).1.sorted_keys).2.group_offsets).2.key_sort_order).2),
      ?_, ?_, ?_⟩ <;>
      simp [Groupby.get_groups, hcol, key_sort_order_keeps_sorted_keys,
        key_sort_order_keeps_group_offsets, group_offsets_keeps_sorted_keys,
        group_offsets_cached, sorted_keys_cached]
  · refine ⟨((((g.get_helper).1.sorted_keys).2.group_offsets).2), ?_, ?_, ?_⟩ <;>
      simp [Groupby.get_groups, hcol, group_offsets_keeps_sorted_keys,
        group_offsets_cached, sorted_keys_cached]

/-- `get_groups` on a context whose helper has both caches filled returns
exactly the cached tables. -/
lemma get_groups_of_cached (g : Groupby) (H : SortGroupbyHelper) (values : TableD)
    (k : TableD) (o : List Nat) (hg : g.helper = some H)
    (hk : H.cached_sorted_keys = some k) (ho : H.cached_group_offsets = some o) :
    (g.get_groups values).1.keys = k ∧ (g.get_groups values).1.offsets = o := by
  have h0 : g.get_helper = (H, g) := get_helper_of_some g H hg
  have h1 : H.sorted_keys = (k, H) := sorted_keys_of_cached H k hk
  have h2 : H.group_offsets = (o, H) := group_offsets_of_cached H o ho
  by_cases hcol : (values.num_columns != 0) = true <;>
    simp [Groupby.get_groups, hcol, h0, h1, h2]

/-- `dispatch_aggregation` when the hash condition holds: the hash strategy
runs and the context (in particular `_helper`) is untouched. -/
lemma dispatch_eq_of_cond_true (g : Groupby) (requests : List AggregationRequest)
    (hc : (g.keys_are_sorted == Sorted.NO && g.helper.isNone
      && can_use_hash_groupby g.keys requests) = true) :
    g.dispatch_aggregation requests = (AggOutput.dispatched Strategy.hash, g) := by
  simp [Groupby.dispatch_aggregation, hc, hash_groupby]

/-- `dispatch_aggregation` when the hash condition fails: the sort strategy
runs, creating the helper if it does not yet exist. -/
lemma dispatch_eq_of_cond_false (g : Groupby) (requests : List AggregationRequest)
    (hc : (g.keys_are_sorted == Sorted.NO && g.helper.isNone
      && can_use_hash_groupby g.keys requests) = false) :
    g.dispatch_aggregation requests =
      (AggOutput.dispatched Strategy.sort, (g.get_helper).2) := by
  simp [Groupby.dispatch_aggregation, hc, Groupby.sort_aggregate]

/-- `aggregate` when some values column size mismatches. -/
lemma aggregate_eq_of_size_fail (g : Groupby) (requests : List AggregationRequest)
    (h1 : (requests.all fun request =>
      request.values.size == g.keys.num_rows) = false) :
    g.aggregate requests = (Except.error GbError.SizeMismatch, g) := by
  simp [Groupby.aggregate, h1]

/-- `aggregate` when sizes match but a type/aggregation pair is invalid. -/
lemma aggregate_eq_of_verify_fail (g : Groupby) (requests : List AggregationRequest)
    (h1 : (requests.all fun request =>
      request.values.size == g.keys.num_rows) = true)
    (h2 : verify_valid_requests requests = false) :
    g.aggregate requests = (Except.error GbError.InvalidAggregation, g) := by
  simp [Groupby.aggregate, h1, h2]

/-- `aggregate` on a validated request list over a zero-row key table. -/
lemma aggregate_eq_of_empty (g : Groupby) (requests : List AggregationRequest)
    (h1 : (requests.all fun request =>
      request.values.size == g.keys.num_rows) = true)
    (h2 : verify_valid_requests requests = true)
    (h3 : (g.keys.num_rows == 0) = true) :
    g.aggregate requests =
      (Except.ok (AggOutput.emptyOut (empty_like g.keys) (empty_results requests)), g) := by
  simp [Groupby.aggregate, h1, h2, h3]

/-- `aggregate` on a validated request list over a non-empty key table. -/
lemma aggregate_eq_of_dispatch (g : Groupby) (requests : List AggregationRequest)
    (h1 : (requests.all fun request =>
      request.values.size == g.keys.num_rows) = true)
    (h2 : verify_valid_requests requests = true)
    (h3 : (g.keys.num_rows == 0) = false) :
    g.aggregate requests =
      (Except.ok (g.dispatch_aggregation requests).1,
       (g.dispatch_aggregation requests).2) := by
  simp [Groupby.aggregate, h1, h2, h3]

/-- `scan` when some values column size mismatches. -/
lemma scan_eq_of_size_fail (g : Groupby) (requests : List AggregationRequest)
    (h1 : (requests.all fun request =>
      request.values.size == g.keys.num_rows) = false) :
    g.scan requests = (Except.error GbError.SizeMismatch, g) := by
  simp [Groupby.scan, h1]

/-- `scan` when sizes match but a type/aggregation pair is invalid. -/
lemma scan_eq_of_verify_fail (g : Groupby) (requests : List AggregationRequest)
    (h1 : (requests.all fun request =>
      request.values.size == g.keys.num_rows) = true)
    (h2 : verify_valid_requests requests = false) :
    g.scan requests = (Except.error GbError.InvalidAggregation, g) := by
  simp [Groupby.scan, h1, h2]

/-- `scan` on a validated request list over a zero-row key table. -/
lemma scan_eq_of_empty (g : Groupby) (requests : List AggregationRequest)
    (h1 : (requests.all fun request =>
      request.values.size == g.keys.num_rows) = true)
    (h2 : verify_valid_requests requests = true)
    (h3 : (g.keys.num_rows == 0) = true) :
    g.scan requests =
      (Except.ok (AggOutput.emptyOut (empty_like g.keys) (empty_results requests)), g) := by
  simp [Groupby.scan, h1, h2, h3]

/-- `scan` on a validated request list over a non-empty key table. -/
lemma scan_eq_of_dispatch (g : Groupby) (requests : List AggregationRequest)
    (h1 : (requests.all fun request =>
      request.values.size == g.keys.num_rows) = true)
    (h2 : verify_valid_requests requests = true)
    (h3 : (g.keys.num_rows == 0) = false) :
    g.scan requests =
      (Except.ok (AggOutput.dispatched Strategy.sort), (g.get_helper).2) := by
  simp [Groupby.scan, h1, h2, h3, Groupby.sort_scan]

/-! ## Concrete objects used to instantiate the theorems -/

/-- A one-row, one-column key table. -/
def exKeys : TableD := ⟨[[some 1]]⟩

/-- A zero-row, one-column key table. -/
def exKeys0 : TableD := ⟨[[]]⟩

/-- A context over `exKeys`, helper not yet created. -/
def exCtx : Groupby := mk_groupby exKeys NullPolicy.EXCLUDE Sorted.NO [] []

/-- A context over `exKeys` whose sort helper already exists. -/
def exCtxH : Groupby :=
  { exCtx with helper := some (mk_sort_groupby_helper exKeys NullPolicy.EXCLUDE Sorted.NO) }

/-- A context over the zero-row key table, helper not yet created. -/
def exCtx0 : Groupby := mk_groupby exKeys0 NullPolicy.EXCLUDE Sorted.NO [] []

/-- A hash-compatible request: SUM over a one-row int32 column. -/
def exReq : AggregationRequest := ⟨⟨DType.int32, 1⟩, [Kind.SUM]⟩

/-- A request whose values column has two rows (mismatching `exKeys`). -/
def exReqBad : AggregationRequest := ⟨⟨DType.int32, 2⟩, [Kind.SUM]⟩

/-- A request asking MEAN of a dictionary column whose keys are strings. -/
def exReqDictBad : AggregationRequest :=
  ⟨⟨DType.dictionary32 DType.string, 1⟩, [Kind.MEAN]⟩

/-- A zero-row request: SUM over an empty float32 column. -/
def exReq0 : AggregationRequest := ⟨⟨DType.float32, 0⟩, [Kind.SUM, Kind.COUNT_VALID]⟩

/-! ## Claims -/

/-- C1: for every aggregate call, `dispatch_aggregation` uses the hash
grouping strategy if and only if the sortedness hint is NO, no sort helper
has been created yet, and every requested aggregation is hash-compatible;
in every other case it uses the sort strategy. -/
theorem C1_hash_strategy_iff (g : Groupby) (requests : List AggregationRequest) :
    ((g.dispatch_aggregation requests).1 = AggOutput.dispatched Strategy.hash ↔
      (g.keys_are_sorted = Sorted.NO ∧ g.helper = none ∧
        can_use_hash_groupby g.keys requests = true)) ∧
    ((g.dispatch_aggregation requests).1 = AggOutput.dispatched Strategy.sort ↔
      ¬(g.keys_are_sorted = Sorted.NO ∧ g.helper = none ∧
        can_use_hash_groupby g.keys requests = true)) := by
  by_cases hc : (g.keys_are_sorted == Sorted.NO && g.helper.isNone
      && can_use_hash_groupby g.keys requests) = true
  · have hp := (dispatch_cond_iff g requests).mp hc
    rw [dispatch_eq_of_cond_true g requests hc]
    simp [hp]
  · have hp := fun hq => hc ((dispatch_cond_iff g requests).mpr hq)
    rw [dispatch_eq_of_cond_false g requests (by simpa using hc)]
    exact ⟨⟨fun hfalse => absurd hfalse (by simp), fun hq => absurd hq hp⟩,
           ⟨fun _ => hp, fun _ => rfl⟩⟩

/-- C2: the helper state is a one-way transition — once the context holds a
sort helper, every subsequent `aggregate` or `scan` call uses the sort
strategy (the hash output never appears, even for hash-compatible requests)
and the helper persists in the resulting context. -/
theorem C2_helper_lock (g : Groupby) (requests : List AggregationRequest)
    (h : g.helper.isSome) :
    ((g.aggregate requests).1 ≠ Except.ok (AggOutput.dispatched Strategy.hash) ∧
      ((g.aggregate requests).2).helper.isSome) ∧
    ((g.scan requests).1 ≠ Except.ok (AggOutput.dispatched Strategy.hash) ∧
      ((g.scan requests).2).helper.isSome) := by
  by_cases h1 : (requests.all fun request =>
      request.values.size == g.keys.num_rows) = true
  · by_cases h2 : verify_valid_requests requests = true
    · by_cases h3 : (g.keys.num_rows == 0) = true
      · rw [aggregate_eq_of_empty g requests h1 h2 h3,
            scan_eq_of_empty g requests h1 h2 h3]
        refine ⟨⟨?_, ?_⟩, ⟨?_, ?_⟩⟩ <;> simp [h]
      · have hcond : (g.keys_are_sorted == Sorted.NO && g.helper.isNone
            && can_use_hash_groupby g.keys requests) = false := by
          cases hh : g.helper with
          | none => rw [hh] at h; simp at h
          | some h0 => simp [hh]
        rw [aggregate_eq_of_dispatch g requests h1 h2 (by simpa using h3),
            scan_eq_of_dispatch g requests h1 h2 (by simpa using h3),
            dispatch_eq_of_cond_false g requests hcond]
        refine ⟨⟨?_, ?_⟩, ⟨?_, ?_⟩⟩ <;> simp [get_helper_snd_isSome g]
    · rw [aggregate_eq_of_verify_fail g requests h1 (by simpa using h2),
          scan_eq_of_verify_fail g requests h1 (by simpa using h2)]
      refine ⟨⟨?_, ?_⟩, ⟨?_, ?_⟩⟩ <;> simp [h]
  · rw [aggregate_eq_of_size_fail g requests (by simpa using h1),
        scan_eq_of_size_fail g requests (by simpa using h1)]
    refine ⟨⟨?_, ?_⟩, ⟨?_, ?_⟩⟩ <;> simp [h]

/-- C2 witness: a context whose helper exists, given a request list that
would by itself qualify for the hash path, still never takes it. -/
theorem C2_helper_lock_witness :
    ((exCtxH.aggregate [exReq]).1 ≠ Except.ok (AggOutput.dispatched Strategy.hash) ∧
      ((exCtxH.aggregate [exReq]).2).helper.isSome) ∧
    ((exCtxH.scan [exReq]).1 ≠ Except.ok (AggOutput.dispatched Strategy.hash) ∧
      ((exCtxH.scan [exReq]).2).helper.isSome) :=
  C2_helper_lock exCtxH [exReq] (by decide)

/-- C3: when any request's values column length differs from the key table's
row count, both `aggregate` and `scan` return the SizeMismatch error with
the context unchanged — no grouping strategy has run. -/
theorem C3_size_mismatch (g : Groupby) (requests : List AggregationRequest)
    (h : ∃ r ∈ requests, r.values.size ≠ g.keys.num_rows) :
    g.aggregate requests = (Except.error GbError.SizeMismatch, g) ∧
    g.scan requests = (Except.error GbError.SizeMismatch, g) := by
  obtain ⟨r, hr, hne⟩ := h
  have hall : (requests.all fun request =>
      request.values.size == g.keys.num_rows) = false := by
    rw [← Bool.not_eq_true, List.all_eq_true]
    push_neg
    exact ⟨r, hr, by simpa using hne⟩
  constructor <;> simp [Groupby.aggregate, Groupby.scan, hall]

/-- C3 witness: a concrete mismatching request fails both entry points. -/
theorem C3_size_mismatch_witness :
    exCtx.aggregate [exReqBad] = (Except.error GbError.SizeMismatch, exCtx) ∧
    exCtx.scan [exReqBad] = (Except.error GbError.SizeMismatch, exCtx) :=
  C3_size_mismatch exCtx [exReqBad] (by decide)

/-- C4: for size-matching requests, `aggregate` and `scan` fail with the
InvalidAggregation error exactly when some (value element type, aggregation
kind) pair is unsupported, where a dictionary-encoded values column is
checked against the element type of its dictionary keys column, not the
dictionary type itself. -/
theorem C4_invalid_aggregation (g : Groupby) (requests : List AggregationRequest)
    (hsz : (requests.all fun request =>
      request.values.size == g.keys.num_rows) = true) :
    (((g.aggregate requests).1 = Except.error GbError.InvalidAggregation) ↔
      ∃ r ∈ requests, ∃ k ∈ r.aggregations,
        is_valid_aggregation
          (if is_dictionary r.values.dtype then dictionary_keys_type r.values.dtype
           else r.values.dtype) k = false) ∧
    (((g.scan requests).1 = Except.error GbError.InvalidAggregation) ↔
      ∃ r ∈ requests, ∃ k ∈ r.aggregations,
        is_valid_aggregation
          (if is_dictionary r.values.dtype then dictionary_keys_type r.values.dtype
           else r.values.dtype) k = false) := by
  have hver : verify_valid_requests requests = false ↔
      ∃ r ∈ requests, ∃ k ∈ r.aggregations,
        is_valid_aggregation
          (if is_dictionary r.values.dtype then dictionary_keys_type r.values.dtype
           else r.values.dtype) k = false := by
    rw [← Bool.not_eq_true]
    unfold verify_valid_requests
    simp only [List.all_eq_true]
    push_neg
    simp [Bool.not_eq_true]
  by_cases h2 : verify_valid_requests requests = true
  · have hrhs : ¬ ∃ r ∈ requests, ∃ k ∈ r.aggregations,
        is_valid_aggregation
          (if is_dictionary r.values.dtype then dictionary_keys_type r.values.dtype
           else r.values.dtype) k = false := fun hx => by
      rw [hver.mpr hx] at h2
      exact Bool.false_ne_true h2
    by_cases h3 : (g.keys.num_rows == 0) = true
    · rw [aggregate_eq_of_empty g requests hsz h2 h3,
          scan_eq_of_empty g requests hsz h2 h3]
      simp [hrhs]
    · rw [aggregate_eq_of_dispatch g requests hsz h2 (by simpa using h3),
          scan_eq_of_dispatch g requests hsz h2 (by simpa using h3)]
      simp [hrhs]
  · have h2f : verify_valid_requests requests = false := by simpa using h2
    rw [aggregate_eq_of_verify_fail g requests hsz h2f,
        scan_eq_of_verify_fail g requests hsz h2f]
    simpa using hver.mp h2f

/-- C4 witness: MEAN over a dictionary column whose keys column holds
strings is rejected — the keys type (string), not the dictionary tag, is
what the validity table sees. -/
theorem C4_invalid_aggregation_witness :
    (((exCtx.aggregate [exReqDictBad]).1 = Except.error GbError.InvalidAggregation) ↔
      ∃ r ∈ [exReqDictBad], ∃ k ∈ r.aggregations,
        is_valid_aggregation
          (if is_dictionary r.values.dtype then dictionary_keys_type r.values.dtype
           else r.values.dtype) k = false) ∧
    (((exCtx.scan [exReqDictBad]).1 = Except.error GbError.InvalidAggregation) ↔
      ∃ r ∈ [exReqDictBad], ∃ k ∈ r.aggregations,
        is_valid_aggregation
          (if is_dictionary r.values.dtype then dictionary_keys_type r.values.dtype
           else r.values.dtype) k = false) :=
  C4_invalid_aggregation exCtx [exReqDictBad] (by decide)

/-- C5: `aggregate` over a zero-row key table with valid requests returns
the empty unique-key table and, per request, one empty result column per
aggregation typed by `target_type`, leaving the context unchanged — no
grouping strategy is dispatched. -/
theorem C5_empty_input_results (g : Groupby) (requests : List AggregationRequest)
    (h : g.keys.num_rows = 0)
    (hsz : (requests.all fun request =>
      request.values.size == g.keys.num_rows) = true)
    (hv : verify_valid_requests requests = true) :
    g.aggregate requests =
      (Except.ok (AggOutput.emptyOut (empty_like g.keys)
        (requests.map (fun request =>
          ⟨request.aggregations.map (fun agg =>
            ⟨target_type request.values.dtype agg, 0⟩)⟩))), g) := by
  rw [aggregate_eq_of_empty g requests hsz hv (by simp [h])]
  rfl

/-- C5 witness: SUM and COUNT over an empty float32 column yield an empty
int64-typed column (widened SUM) and an empty int32-typed column. -/
theorem C5_empty_input_results_witness :
    exCtx0.aggregate [exReq0] =
      (Except.ok (AggOutput.emptyOut (empty_like exCtx0.keys)
        ([exReq0].map (fun request =>
          ⟨request.aggregations.map (fun agg =>
            ⟨target_type request.values.dtype agg, 0⟩)⟩))), exCtx0) :=
  C5_empty_input_results exCtx0 [exReq0] (by decide) (by decide) (by decide)

/-- C6: `scan` performs the same size and type/aggregation validation and
the same empty-input handling as `aggregate`; when the key table is
non-empty it always executes via the sort strategy, and the hash strategy
is never used for scan. -/
theorem C6_scan_always_sort (g : Groupby) (requests : List AggregationRequest) :
    (∀ e : GbError, (g.scan requests).1 = Except.error e ↔
      (g.aggregate requests).1 = Except.error e) ∧
    (g.keys.num_rows = 0 → g.scan requests = g.aggregate requests) ∧
    (∀ out : AggOutput, ∀ g2 : Groupby, g.scan requests = (Except.ok out, g2) →
      out ≠ AggOutput.dispatched Strategy.hash) ∧
    (g.keys.num_rows ≠ 0 →
      (requests.all fun request =>
        request.values.size == g.keys.num_rows) = true →
      verify_valid_requests requests = true →
      (g.scan requests).1 = Except.ok (AggOutput.dispatched Strategy.sort)) := by
  by_cases h1 : (requests.all fun request =>
      request.values.size == g.keys.num_rows) = true
  · by_cases h2 : verify_valid_requests requests = true
    · by_cases h3 : (g.keys.num_rows == 0) = true
      · rw [aggregate_eq_of_empty g requests h1 h2 h3,
            scan_eq_of_empty g requests h1 h2 h3]
        refine ⟨fun e => Iff.rfl, fun _ => rfl, fun out g2 hout hhash => ?_, fun hne _ _ => ?_⟩
        · rw [Prod.mk.injEq] at hout
          rw [hhash] at hout
          exact absurd hout.1 (by simp)
        · exact absurd (by simpa using h3) hne
      · rw [aggregate_eq_of_dispatch g requests h1 h2 (by simpa using h3),
            scan_eq_of_dispatch g requests h1 h2 (by simpa using h3)]
        refine ⟨fun e => ?_, fun hzero => ?_, fun out g2 hout hhash => ?_, fun _ _ _ => rfl⟩
        · simp
        · exact absurd (by simpa using hzero) (by simpa using h3)
        · rw [Prod.mk.injEq] at hout
          rw [hhash] at hout
          exact absurd hout.1 (by simp)
    · rw [aggregate_eq_of_verify_fail g requests h1 (by simpa using h2),
          scan_eq_of_verify_fail g requests h1 (by simpa using h2)]
      refine ⟨fun e => Iff.rfl, fun _ => rfl, fun out g2 hout _ => ?_,
        fun _ _ hv => absurd hv h2⟩
      rw [Prod.mk.injEq] at hout
      exact absurd hout.1 (by simp)
  · rw [aggregate_eq_of_size_fail g requests (by simpa using h1),
        scan_eq_of_size_fail g requests (by simpa using h1)]
    refine ⟨fun e => Iff.rfl, fun _ => rfl, fun out g2 hout _ => ?_,
      fun _ hs _ => absurd hs h1⟩
    rw [Prod.mk.injEq] at hout
    exact absurd hout.1 (by simp)

/-- C7: all validation happens before any strategy executes — whenever
`aggregate` or `scan` returns an error, the context (its helper state
included) is returned unchanged, and no dispatched output is produced. -/
theorem C7_validation_before_strategy (g : Groupby)
    (requests : List AggregationRequest) :
    (∀ e : GbError, (g.aggregate requests).1 = Except.error e →
      (g.aggregate requests).2 = g) ∧
    (∀ e : GbError, (g.scan requests).1 = Except.error e →
      (g.scan requests).2 = g) := by
  by_cases h1 : (requests.all fun request =>
      request.values.size == g.keys.num_rows) = true
  · by_cases h2 : verify_valid_requests requests = true
    · by_cases h3 : (g.keys.num_rows == 0) = true
      · constructor <;> intro e he <;>
          simp [Groupby.aggregate, Groupby.scan, h1, h2, h3] at he
      · constructor <;> intro e he <;>
          simp [Groupby.aggregate, Groupby.scan, h1, h2, h3] at he
    · constructor <;> intro e he <;>
        simp [Groupby.aggregate, Groupby.scan, h1, h2]
  · constructor <;> intro e he <;>
      simp [Groupby.aggregate, Groupby.scan, h1]

/-- C10: on a zero-row key table, `aggregate` and `scan` return before
strategy dispatch: the context is returned unchanged (so the helper is not
constructed and a later call can still take the hash path), and the output
is never a dispatched-strategy result. -/
theorem C10_empty_keys_state_unchanged (g : Groupby)
    (requests : List AggregationRequest) (h : g.keys.num_rows = 0) :
    (g.aggregate requests).2 = g ∧ (g.scan requests).2 = g ∧
    (∀ s : Strategy, (g.aggregate requests).1 ≠
      Except.ok (AggOutput.dispatched s)) ∧
    (∀ s : Strategy, (g.scan requests).1 ≠
      Except.ok (AggOutput.dispatched s)) := by
  have h3 : (g.keys.num_rows == 0) = true := by simp [h]
  by_cases h1 : (requests.all fun request =>
      request.values.size == g.keys.num_rows) = true
  · by_cases h2 : verify_valid_requests requests = true
    · rw [aggregate_eq_of_empty g requests h1 h2 h3,
          scan_eq_of_empty g requests h1 h2 h3]
      simp
    · rw [aggregate_eq_of_verify_fail g requests h1 (by simpa using h2),
          scan_eq_of_verify_fail g requests h1 (by simpa using h2)]
      simp
  · rw [aggregate_eq_of_size_fail g requests (by simpa using h1),
        scan_eq_of_size_fail g requests (by simpa using h1)]
    simp

/-- C10 witness: the zero-row context is untouched by a concrete call. -/
theorem C10_empty_keys_state_unchanged_witness :
    (exCtx0.aggregate [exReq0]).2 = exCtx0 ∧ (exCtx0.scan [exReq0]).2 = exCtx0 ∧
    (∀ s : Strategy, (exCtx0.aggregate [exReq0]).1 ≠
      Except.ok (AggOutput.dispatched s)) ∧
    (∀ s : Strategy, (exCtx0.scan [exReq0]).1 ≠
      Except.ok (AggOutput.dispatched s)) :=
  C10_empty_keys_state_unchanged exCtx0 [exReq0] (by decide)

/-- C8: calling `get_groups` twice on the same context returns identical
sorted-keys tables and identical group-offsets lists: the first call leaves
all helper outputs cached, the cache is never invalidated, and the second
call reads it back. -/
theorem C8_get_groups_idempotent (g : Groupby) (values : TableD) :
    (((g.get_groups values).2.get_groups values).1.keys =
      (g.get_groups values).1.keys) ∧
    (((g.get_groups values).2.get_groups values).1.offsets =
      (g.get_groups values).1.offsets) := by
  obtain ⟨H, hst, hk, ho⟩ := get_groups_spec g values
  have hg : ((g.get_groups values).2).helper = some H := by rw [hst]
  exact get_groups_of_cached _ H values _ _ hg hk ho

/-- C9: `get_groups` treats a values table with zero columns as absent —
the grouped-values output exists if and only if the supplied values table
has at least one column, and when it exists it is the values rows gathered
by the helper's key sort permutation. -/
theorem C9_grouped_values_iff_columns (g : Groupby) (values : TableD) :
    ((g.get_groups values).1.values.isSome ↔ values.num_columns ≠ 0) ∧
    (∀ gv : TableD, (g.get_groups values).1.values = some gv →
      ∃ H : SortGroupbyHelper, ∃ ord : List Nat,
        ((g.get_groups values).2).helper = some H ∧
        H.cached_key_sort_order = some ord ∧ gv = gather values ord) := by
  by_cases hcol : (values.num_columns != 0) = true
  · have hred : (g.get_groups values).1.values =
        some (gather values
          (((((g.get_helper).1.sorted_keys).2.group_offsets).2.key_sort_order).1)) ∧
        ((g.get_groups values).2).helper =
        some (((((g.get_helper).1.sorted_keys).2.group_offsets).2.key_sort_order).2) := by
      constructor <;> simp [Groupby.get_groups, hcol]
    constructor
    · rw [hred.1]
      simpa using hcol
    · intro gv hgv
      rw [hred.1] at hgv
      refine ⟨(((((g.get_helper).1.sorted_keys).2.group_offsets).2.key_sort_order).2),
        (((((g.get_helper).1.sorted_keys).2.group_offsets).2.key_sort_order).1),
        hred.2, key_sort_order_cached _, ?_⟩
      exact (Option.some.injEq _ _ ▸ hgv).symm
  · have hred : (g.get_groups values).1.values = none := by
      simp [Groupby.get_groups, hcol]
    constructor
    · rw [hred]
      simpa using hcol
    · intro gv hgv
      rw [hred] at hgv
      exact absurd hgv (by simp)

end Cudf
